import Mathlib

/-!
Verification development for a miniature concurrent task-execution framework
(bounded thread pool, bounded protected FIFO queue with two synchronization
backends, callables/futures, executor admission policy).

The C sources are embedded shallowly:
* machine pointers (`void *`) holding task payloads become values of a type
  parameter `α`; the C null pointer becomes `Option.none`;
* every sequential state mutation becomes explicit state passing;
* blocking operations return `Option (result × state)`, where `none` means the
  calling thread blocks forever in a single-threaded (sequential) execution —
  no other thread exists to post the semaphore or signal the condition
  variable;
* timed waits are modelled in the same sequential setting: with no other
  thread to wake the waiter, a `pthread_cond_timedwait` / `sem_timedwait`
  whose predicate is not already satisfied ends at the deadline with
  `ETIMEDOUT` / `-1`-with-`errno=ETIMEDOUT`.

The ring buffer (`circular_buffer.c`) and the `protected_buffer` dispatcher
are consumed by the sources but are not part of them; they are modelled from
the spec where indicated.
-/

/-- Modelled from the spec: the RingBuffer of `circular_buffer.c` is an
external collaborator not present in the sources.  §4.1: fixed-capacity
unsynchronized FIFO slot store; invariant `0 ≤ size ≤ capacity`.  `data`
lists the stored items, head of the queue first; `size` is `data.length`. -/
structure circular_buffer (α : Type) where
  max_size : Nat
  data : List α
deriving DecidableEq

/-- Modelled from the spec (§4.1, `circular_buffer.c` missing from sources):
`put(item)` succeeds iff `size < capacity`; appends at tail, increments
size; else fails, item not stored.  The C function returns an int status
(consumed as `done` by `cond_protected_buffer_add`). -/
def circular_buffer_put (b : circular_buffer α) (d : α) : Bool × circular_buffer α :=
  if b.data.length < b.max_size then
    (true, { b with data := b.data ++ [d] })
  else
    (false, b)

/-- Modelled from the spec (§4.1, `circular_buffer.c` missing from sources):
`get()` succeeds iff `size > 0`; removes and returns the head item,
decrements size; else fails and returns the empty marker NULL (`none`). -/
def circular_buffer_get (b : circular_buffer α) : Option α × circular_buffer α :=
  match b.data with
  | [] => (none, b)
  | d :: rest => (some d, { b with data := rest })

/-- Modelled from the spec (§4.1): `circular_buffer_init(length)` allocates an
empty ring buffer of capacity `length`. -/
def circular_buffer_init (α : Type) (length : Nat) : circular_buffer α :=
  { max_size := length, data := [] }

/-- `errno` value returned by `pthread_cond_timedwait` when the absolute
deadline passes; a positive error number, never `-1`. -/
def ETIMEDOUT : Int := 110

/-- In a single-threaded run nothing ever signals the condition variable, so
a `pthread_cond_timedwait` whose predicate is not already true returns at
the deadline with `ETIMEDOUT`. -/
def pthread_cond_timedwait_expired : Int := ETIMEDOUT

/-- State of a condition-variable protected buffer (`cond_protected_buffer.c`).
The mutex and the two condition variables `not_empty` / `not_full` carry no
sequential state; only the ring buffer remains. -/
structure cond_protected_buffer (α : Type) where
  buffer : circular_buffer α
deriving DecidableEq

/-- `cond_protected_buffer_init(length)`: fresh mutex, fresh condition
variables, ring buffer of capacity `length`. -/
def cond_protected_buffer_init (α : Type) (length : Nat) : cond_protected_buffer α :=
  { buffer := circular_buffer_init α length }

/-- `cond_protected_buffer_get`: lock; `while (size == 0) wait(not_empty)`;
broadcast `not_full`; `d = circular_buffer_get`; unlock; return `d`.
Sequentially the wait never ends (`none` = the caller blocks forever). -/
def cond_protected_buffer_get (b : cond_protected_buffer α) :
    Option (Option α × cond_protected_buffer α) :=
  if b.buffer.data.length = 0 then
    none
  else
    let (d, buf) := circular_buffer_get b.buffer
    some (d, { b with buffer := buf })

/-- `cond_protected_buffer_put`: lock; `while (size == max_size)
wait(not_full)`; broadcast `not_empty`; `circular_buffer_put`; unlock.
Sequentially the wait never ends (`none` = the caller blocks forever). -/
def cond_protected_buffer_put (b : cond_protected_buffer α) (d : α) :
    Option (cond_protected_buffer α) :=
  if b.buffer.data.length = b.buffer.max_size then
    none
  else
    let (_done, buf) := circular_buffer_put b.buffer d
    some { b with buffer := buf }

/-- `cond_protected_buffer_remove`: lock; `d = circular_buffer_get`;
`if (d != NULL) broadcast(not_full)`; unlock; return `d` (NULL on empty). -/
def cond_protected_buffer_remove (b : cond_protected_buffer α) :
    Option α × cond_protected_buffer α :=
  let (d, buf) := circular_buffer_get b.buffer
  (d, { b with buffer := buf })

/-- `cond_protected_buffer_add`: lock; `done = circular_buffer_put`;
`if (!done) d = NULL; else broadcast(not_empty)`; unlock; return `done`. -/
def cond_protected_buffer_add (b : cond_protected_buffer α) (d : α) :
    Bool × cond_protected_buffer α :=
  let (done, buf) := circular_buffer_put b.buffer d
  (done, { b with buffer := buf })

/-- `cond_protected_buffer_poll`: lock; `wait = 0; while (size == 0 && wait
== 0) wait = timedwait(not_empty, m, abstime)`; `d = circular_buffer_get`;
`if (d != NULL) broadcast(not_full)`; unlock; return `d`.  Sequentially, an
initially empty buffer stays empty until the deadline, the timed wait
returns `ETIMEDOUT`, the loop exits, and `circular_buffer_get` yields NULL. -/
def cond_protected_buffer_poll (b : cond_protected_buffer α) :
    Option α × cond_protected_buffer α :=
  let _wait : Int :=
    if b.buffer.data.length = 0 then pthread_cond_timedwait_expired else 0
  let (d, buf) := circular_buffer_get b.buffer
  (d, { b with buffer := buf })

/-- `cond_protected_buffer_offer`: lock; `wait = 0; while (size == max_size
&& wait == 0) wait = timedwait(not_full, m, abstime)`; `if (wait == -1)
return NULL;` (dead branch: `pthread_cond_timedwait` returns `0` or a
positive errno, never `-1`); else `done = circular_buffer_put`; `if (!done)
d = NULL; else broadcast(not_empty)`; unlock; return `done`. -/
def cond_protected_buffer_offer (b : cond_protected_buffer α) (d : α) :
    Bool × cond_protected_buffer α :=
  let wait : Int :=
    if b.buffer.data.length = b.buffer.max_size then pthread_cond_timedwait_expired else 0
  if wait = -1 then
    (false, b)
  else
    let (done, buf) := circular_buffer_put b.buffer d
    (done, { b with buffer := buf })

/-- State of a semaphore-based protected buffer (second compilation unit of
the sources): ring buffer, mutex (stateless here), and the two named
counting semaphores, each modelled by its counter value. -/
structure sem_protected_buffer (α : Type) where
  buffer : circular_buffer α
  empty_slots_sem : Nat
  full_slots_sem : Nat
deriving DecidableEq

/-- `sem_protected_buffer_init(length)`: ring buffer of capacity `length`,
`empty_slots` semaphore opened with initial value `max_size`, `full_slots`
semaphore opened with initial value `0`. -/
def sem_protected_buffer_init (α : Type) (length : Nat) : sem_protected_buffer α :=
  { buffer := circular_buffer_init α length
    empty_slots_sem := (circular_buffer_init α length).max_size
    full_slots_sem := 0 }

/-- `sem_protected_buffer_get`: `sem_wait(full_slots)`; lock; `d =
circular_buffer_get`; unlock; `sem_post(empty_slots)`; return `d`.
Sequentially a `sem_wait` on a zero semaphore never returns (`none`). -/
def sem_protected_buffer_get (b : sem_protected_buffer α) :
    Option (Option α × sem_protected_buffer α) :=
  if b.full_slots_sem = 0 then
    none
  else
    let (d, buf) := circular_buffer_get b.buffer
    some (d, { b with buffer := buf
                      full_slots_sem := b.full_slots_sem - 1
                      empty_slots_sem := b.empty_slots_sem + 1 })

/-- `sem_protected_buffer_put`: `sem_wait(empty_slots)`; lock;
`circular_buffer_put`; unlock; `sem_post(full_slots)`.  Sequentially a
`sem_wait` on a zero semaphore never returns (`none`). -/
def sem_protected_buffer_put (b : sem_protected_buffer α) (d : α) :
    Option (sem_protected_buffer α) :=
  if b.empty_slots_sem = 0 then
    none
  else
    let (_done, buf) := circular_buffer_put b.buffer d
    some { b with buffer := buf
                  empty_slots_sem := b.empty_slots_sem - 1
                  full_slots_sem := b.full_slots_sem + 1 }

/-- `sem_protected_buffer_remove`: `rc = sem_trywait(full_slots)`; if it
fails return NULL; else lock; `d = circular_buffer_get`; unlock;
`sem_post(empty_slots)`; return `d`. -/
def sem_protected_buffer_remove (b : sem_protected_buffer α) :
    Option α × sem_protected_buffer α :=
  if b.full_slots_sem = 0 then
    (none, b)
  else
    let (d, buf) := circular_buffer_get b.buffer
    (d, { b with buffer := buf
                 full_slots_sem := b.full_slots_sem - 1
                 empty_slots_sem := b.empty_slots_sem + 1 })

/-- `sem_protected_buffer_add`: `rc = sem_trywait(empty_slots)`; if it fails
return 0 (element not stored); else lock; `circular_buffer_put` (its status
is ignored by the C code); unlock; `sem_post(full_slots)`; return 1. -/
def sem_protected_buffer_add (b : sem_protected_buffer α) (d : α) :
    Bool × sem_protected_buffer α :=
  if b.empty_slots_sem = 0 then
    (false, b)
  else
    let (_done, buf) := circular_buffer_put b.buffer d
    (true, { b with buffer := buf
                    empty_slots_sem := b.empty_slots_sem - 1
                    full_slots_sem := b.full_slots_sem + 1 })

/-- `sem_protected_buffer_poll`: `rc = sem_timedwait(full_slots, abstime)`;
if it fails (sequentially: the semaphore is 0 and stays 0 until the
deadline) return NULL; else lock; `d = circular_buffer_get`; unlock;
`sem_post(empty_slots)`; return `d`. -/
def sem_protected_buffer_poll (b : sem_protected_buffer α) :
    Option α × sem_protected_buffer α :=
  if b.full_slots_sem = 0 then
    (none, b)
  else
    let (d, buf) := circular_buffer_get b.buffer
    (d, { b with buffer := buf
                 full_slots_sem := b.full_slots_sem - 1
                 empty_slots_sem := b.empty_slots_sem + 1 })

/-- `sem_protected_buffer_offer`: `rc = sem_timedwait(empty_slots, abstime)`;
if it fails (sequentially: the semaphore is 0 and stays 0 until the
deadline) set `d = NULL` and return 0; else lock; `circular_buffer_put`
(status ignored); unlock; `sem_post(full_slots)`; return 1. -/
def sem_protected_buffer_offer (b : sem_protected_buffer α) (d : α) :
    Bool × sem_protected_buffer α :=
  if b.empty_slots_sem = 0 then
    (false, b)
  else
    let (_done, buf) := circular_buffer_put b.buffer d
    (true, { b with buffer := buf
                    empty_slots_sem := b.empty_slots_sem - 1
                    full_slots_sem := b.full_slots_sem + 1 })

/-- Thread-pool state (`thread_pool.h` / third compilation unit of the
sources): core size, max size, current `size`, and the `shutdown` flag.
C ints are modelled as `Nat` (the spec, §6, constrains `core_pool_size ≥ 0`
and `max_pool_size ≥ core_pool_size`) and the flag as `Bool`. -/
structure thread_pool_t where
  core_pool_size : Nat
  max_pool_size : Nat
  size : Nat
  shutdown : Bool
deriving DecidableEq

/-- `thread_pool_init(core, max)`: allocate, set both sizes, `size = 0`,
initialize the mutex.  (The C code leaves `shutdown` uninitialized in the
malloc'd struct; it is modelled as the zero value `false`.) -/
def thread_pool_init (core_pool_size max_pool_size : Nat) : thread_pool_t :=
  { core_pool_size := core_pool_size
    max_pool_size := max_pool_size
    size := 0
    shutdown := false }

/-- A callable: opaque work function, its parameter, and the period
(`0` = one-shot).  The back pointer `callable->executor` of the C struct is
passed explicitly to `main_pool_thread` instead of being stored, to keep the
Lean structure non-recursive. -/
structure callable_t where
  main : Nat → Nat
  params : Nat
  period : Nat

/-- A future: the wrapped callable, the result slot (`void *`, modelled as
`Nat`; left uninitialized by `submit_callable`, which is modelled by the
arbitrary content `0`), and the `completed` flag. -/
structure future_t where
  callable : callable_t
  result : Nat
  completed : Bool

/-- Observable outcome of `pool_thread_create`: the updated pool, the future
handed to a freshly spawned thread via `pthread_create` (`none` when no
thread was spawned), and the returned status `done`. -/
structure PoolCreateResult where
  pool : thread_pool_t
  spawned : Option future_t
  ret : Bool

/-- `pool_thread_create(thread_pool, main, future, force)`: `done = 0`; lock;
`if (size < core_pool_size) { pthread_create(thread, NULL, main, future);
size++; }`; unlock; `if (done) print`; `return done`.  The C code never
assigns `done = 1` and never consults `force` or `max_pool_size`. -/
def pool_thread_create (thread_pool : thread_pool_t) (future : future_t)
    (_force : Bool) : PoolCreateResult :=
  let done := false
  if thread_pool.size < thread_pool.core_pool_size then
    { pool := { thread_pool with size := thread_pool.size + 1 }
      spawned := some future
      ret := done }
  else
    { pool := thread_pool, spawned := none, ret := done }

/-- `thread_pool_shutdown`: `thread_pool->shutdown = 1`. -/
def thread_pool_shutdown (thread_pool : thread_pool_t) : thread_pool_t :=
  { thread_pool with shutdown := true }

/-- `pool_thread_remove`: `done = 1; if (done) print; return done`.  The C
body neither locks nor decrements `size`; it unconditionally reports
success. -/
def pool_thread_remove (thread_pool : thread_pool_t) : Bool × thread_pool_t :=
  let done := true
  (done, thread_pool)

/-- `wait_thread_pool_empty`: the C body is empty; the call returns
immediately whatever `size` is. -/
def wait_thread_pool_empty (thread_pool : thread_pool_t) : thread_pool_t :=
  thread_pool

/-- `get_shutdown`: `return thread_pool->shutdown`. -/
def get_shutdown (thread_pool : thread_pool_t) : Bool :=
  thread_pool.shutdown

/-- `FOREVER` keep-alive sentinel (`utils.h`): disables idle expiry. -/
def FOREVER : Int := -1

/-- Executor state (`executor.h`): keep-alive time, thread pool, and the
bounded queue of pending futures.  `executor_init` builds the queue with
`protected_buffer_init(0, n)`, i.e. the condition-variable implementation. -/
structure executor_t where
  keep_alive_time : Int
  thread_pool : thread_pool_t
  futures : cond_protected_buffer future_t

/-- `executor_init(core, max, keep_alive, n)`: allocate; init the thread
pool; init the futures queue with the condition-variable backend. -/
def executor_init (core_pool_size max_pool_size : Nat) (keep_alive_time : Int)
    (callable_array_size : Nat) : executor_t :=
  { keep_alive_time := keep_alive_time
    thread_pool := thread_pool_init core_pool_size max_pool_size
    futures := cond_protected_buffer_init future_t callable_array_size }

/-- Observable outcome of `submit_callable`: the returned `future_t *`
(`none` = NULL), the executor state afterwards, and the future handed to a
thread spawned inside the call, if any. -/
structure SubmitResult where
  ret : Option future_t
  executor : executor_t
  spawned : Option future_t

/-- `submit_callable(executor, callable)`: malloc a future (`completed = 0`,
`result` uninitialized); `if (pool_thread_create(pool, main_pool_thread,
future, 0)) return future;` — dead branch, `pool_thread_create` always
returns 0, though it may still have spawned a thread; then `first =
protected_buffer_remove(futures)`; `if (first != NULL) {
protected_buffer_add(futures, future); future = first; }`; `return NULL`. -/
def submit_callable (executor : executor_t) (callable : callable_t) : SubmitResult :=
  let future : future_t := { callable := callable, result := 0, completed := false }
  let pc := pool_thread_create executor.thread_pool future false
  let executor := { executor with thread_pool := pc.pool }
  if pc.ret then
    { ret := some future, executor := executor, spawned := pc.spawned }
  else
    let (first, q) := cond_protected_buffer_remove executor.futures
    match first with
    | some _ =>
        let (_done, q2) := cond_protected_buffer_add q future
        { ret := none
          executor := { executor with futures := q2 }
          spawned := pc.spawned }
    | none =>
        { ret := none
          executor := { executor with futures := q }
          spawned := pc.spawned }

/-- `get_callable_result(future)`: `result = (void *) future->result; return
result;`.  The comments announce blocking until `completed` and mutual
exclusion, but the body performs neither: it reads the result slot
immediately, whatever `completed` is. -/
def get_callable_result (future : future_t) : Nat :=
  future.result

/-- The inner `while (1)` loop of `main_pool_thread`, run against a fixed
shutdown flag: each iteration stores `callable->main(params)` into the
result, then exits if `period == 0`, else exits if the executor requested a
shutdown, else repeats.  Returns the list of results stored across the
iterations, or `none` if the loop has not exited within `fuel` iterations
(a periodic callable with shutdown never requested loops forever). -/
def worker_inner_loop (callable : callable_t) (shutdown : Bool) :
    Nat → Option (List Nat)
  | 0 => none
  | fuel + 1 =>
      let r := callable.main callable.params
      if callable.period = 0 then
        some [r]
      else if shutdown then
        some [r]
      else
        (worker_inner_loop callable shutdown fuel).map (fun rs => r :: rs)

/-- Observable outcome of one `main_pool_thread` worker: the results its
inner loop stored, the number of futures it fetched from the executor's
queue after the initial one, and the value of the local `future` variable
when the outer loop exits. -/
structure WorkerRun where
  executedResults : List Nat
  queueFetches : Nat
  finalFuture : Option future_t

/-- `main_pool_thread(arg)`: `future = arg`; `while (future != NULL)` — run
the inner loop on `future`'s callable; then `future = NULL`; then, in both
the `FOREVER` and the timed branch, `if (future == NULL &&
pool_thread_remove(pool)) break;`.  Neither branch contains any call that
fetches from `executor->futures`, so `queueFetches` is structurally `0`;
if `pool_thread_remove` reported success the loop breaks, and otherwise the
`while (future != NULL)` guard fails on the next test — either way the
thread returns.  `none` = the inner loop never exits within `fuel`. -/
def main_pool_thread (executor : executor_t) (arg : future_t) (fuel : Nat) :
    Option WorkerRun :=
  match worker_inner_loop arg.callable (get_shutdown executor.thread_pool) fuel with
  | none => none
  | some rs =>
      let (done, _pool) := pool_thread_remove executor.thread_pool
      if done then
        some { executedResults := rs, queueFetches := 0, finalFuture := none }
      else
        some { executedResults := rs, queueFetches := 0, finalFuture := none }

/-- `executor_shutdown(executor)`: `thread_pool_shutdown(pool);
wait_thread_pool_empty(pool); printf(...)`.  The comment "Fill the queue of
null futures to unblock potential threads" has no corresponding code. -/
def executor_shutdown (executor : executor_t) : executor_t :=
  let pool := thread_pool_shutdown executor.thread_pool
  let pool := wait_thread_pool_empty pool
  { executor with thread_pool := pool }

/-- One of the six protected-buffer operations, with its argument when it has
one.  Used to compare the two backends on whole call sequences. -/
inductive QueueOp (α : Type) where
  | get : QueueOp α
  | put : α → QueueOp α
  | remove : QueueOp α
  | add : α → QueueOp α
  | poll : QueueOp α
  | offer : α → QueueOp α
deriving DecidableEq

/-- The value an operation hands back to its caller: an element (possibly
NULL) for `get`/`remove`/`poll`, a success flag for `add`/`offer`, nothing
for `put` (its C return type is `void`). -/
inductive OpResult (α : Type) where
  | elem : Option α → OpResult α
  | flag : Bool → OpResult α
  | unit : OpResult α
deriving DecidableEq

/-- One sequential step of the condition-variable backend: `none` when the
calling thread blocks forever. -/
def condStep (op : QueueOp α) (b : cond_protected_buffer α) :
    Option (OpResult α × cond_protected_buffer α) :=
  match op with
  | .get =>
      (cond_protected_buffer_get b).map (fun p => (.elem p.1, p.2))
  | .put d =>
      (cond_protected_buffer_put b d).map (fun b2 => (.unit, b2))
  | .remove =>
      let (r, b2) := cond_protected_buffer_remove b
      some (.elem r, b2)
  | .add d =>
      let (r, b2) := cond_protected_buffer_add b d
      some (.flag r, b2)
  | .poll =>
      let (r, b2) := cond_protected_buffer_poll b
      some (.elem r, b2)
  | .offer d =>
      let (r, b2) := cond_protected_buffer_offer b d
      some (.flag r, b2)

/-- One sequential step of the semaphore backend: `none` when the calling
thread blocks forever. -/
def semStep (op : QueueOp α) (b : sem_protected_buffer α) :
    Option (OpResult α × sem_protected_buffer α) :=
  match op with
  | .get =>
      (sem_protected_buffer_get b).map (fun p => (.elem p.1, p.2))
  | .put d =>
      (sem_protected_buffer_put b d).map (fun b2 => (.unit, b2))
  | .remove =>
      let (r, b2) := sem_protected_buffer_remove b
      some (.elem r, b2)
  | .add d =>
      let (r, b2) := sem_protected_buffer_add b d
      some (.flag r, b2)
  | .poll =>
      let (r, b2) := sem_protected_buffer_poll b
      some (.elem r, b2)
  | .offer d =>
      let (r, b2) := sem_protected_buffer_offer b d
      some (.flag r, b2)

/-- Run a sequence of operations on the condition-variable backend,
single-threaded.  Returns the log of executed operations with their results
and the final state; when an operation blocks forever, the run stops there
(no later operation executes). -/
def runCond : List (QueueOp α) → cond_protected_buffer α →
    List (QueueOp α × OpResult α) × cond_protected_buffer α
  | [], b => ([], b)
  | op :: rest, b =>
      match condStep op b with
      | none => ([], b)
      | some (r, b2) =>
          let (log, bf) := runCond rest b2
          ((op, r) :: log, bf)

/-- Run a sequence of operations on the semaphore backend, single-threaded;
same conventions as `runCond`. -/
def runSem : List (QueueOp α) → sem_protected_buffer α →
    List (QueueOp α × OpResult α) × sem_protected_buffer α
  | [], b => ([], b)
  | op :: rest, b =>
      match semStep op b with
      | none => ([], b)
      | some (r, b2) =>
          let (log, bf) := runSem rest b2
          ((op, r) :: log, bf)

/-- The element a logged operation successfully enqueued, if any: a completed
`put`, or an `add`/`offer` that returned success. -/
def enqOf : QueueOp α × OpResult α → List α
  | (.put d, .unit) => [d]
  | (.add d, .flag true) => [d]
  | (.offer d, .flag true) => [d]
  | _ => []

/-- The element a logged operation successfully dequeued, if any: a
`get`/`remove`/`poll` that returned a non-NULL element. -/
def deqOf : QueueOp α × OpResult α → List α
  | (.get, .elem (some d)) => [d]
  | (.remove, .elem (some d)) => [d]
  | (.poll, .elem (some d)) => [d]
  | _ => []

/-- All elements successfully enqueued over a log, in call order. -/
def enqueuedOf : List (QueueOp α × OpResult α) → List α
  | [] => []
  | p :: rest => enqOf p ++ enqueuedOf rest

/-- All elements successfully dequeued over a log, in call order. -/
def dequeuedOf : List (QueueOp α × OpResult α) → List α
  | [] => []
  | p :: rest => deqOf p ++ dequeuedOf rest

/-- Semaphore-backend counter invariant: `full_slots` counts the stored
elements and `empty_slots` the free slots.  Established by
`sem_protected_buffer_init` and preserved by every operation. -/
def sem_pb_inv (b : sem_protected_buffer α) : Prop :=
  b.full_slots_sem = b.buffer.data.length ∧
  b.empty_slots_sem + b.buffer.data.length = b.buffer.max_size

/-- Simulation relation between the two backends: same ring-buffer state,
and the semaphore counters agree with it. -/
def simR (s : sem_protected_buffer α) (c : cond_protected_buffer α) : Prop :=
  s.buffer = c.buffer ∧ sem_pb_inv s

/-- A one-shot callable used as concrete test fixture: `main = (· + 1)`,
`params = 5`, `period = 0`. -/
def callable0 : callable_t :=
  { main := fun n => n + 1, params := 5, period := 0 }

/-- A second one-shot callable fixture: `main = (2 * ·)`, `params = 3`. -/
def callable1 : callable_t :=
  { main := fun n => 2 * n, params := 3, period := 0 }

/-- The future `submit_callable` builds for `callable0` (fresh, result slot
uninitialized, `completed = 0`). -/
def future0 : future_t :=
  { callable := callable0, result := 0, completed := false }

/-- The future `submit_callable` builds for `callable1`. -/
def future1 : future_t :=
  { callable := callable1, result := 0, completed := false }

/-- Executor fixture for the submission path: `core_pool_size = 0`, so the
core-tier `pool_thread_create` genuinely declines to spawn, and a futures
queue of capacity 1 that is empty (at least one free slot). -/
def exSubmit : executor_t := executor_init 0 0 0 1

/-- Thread-pool fixture with a free core slot: `core = 1`, `max = 2`,
`size = 0`. -/
def tpFree : thread_pool_t :=
  { core_pool_size := 1, max_pool_size := 2, size := 0, shutdown := false }

/-- Thread-pool fixture with the core tier exhausted but the overflow tier
free: `core = 1`, `max = 2`, `size = 1`. -/
def tpCoreFull : thread_pool_t :=
  { core_pool_size := 1, max_pool_size := 2, size := 1, shutdown := false }

/-- A future whose callable nobody has run: `completed = false` while the
result slot holds the residual value `7`. -/
def future_incomplete : future_t :=
  { callable := callable0, result := 7, completed := false }

/-- Executor fixture for the shutdown path: three worker threads are
registered (`size = 3`). -/
def exThree : executor_t :=
  { keep_alive_time := FOREVER
    thread_pool := { core_pool_size := 2, max_pool_size := 4, size := 3, shutdown := false }
    futures := cond_protected_buffer_init future_t 2 }

/-- Executor fixture for submission-after-shutdown: `executor_shutdown` has
run (shutdown flag raised), the pool spawns nothing (`core = 0`), and the
futures queue (capacity 2) still holds one pending future. -/
def exShut : executor_t :=
  executor_shutdown
    { keep_alive_time := 0
      thread_pool := { core_pool_size := 0, max_pool_size := 1, size := 0, shutdown := false }
      futures := { buffer := { max_size := 2, data := [future0] } } }

/-- Worker-run fixture: the outcome of `main_pool_thread` on `future0`. -/
def runFuture0 : WorkerRun :=
  { executedResults := [6], queueFetches := 0, finalFuture := none }

/-- An executor whose pool has one registered worker and no pending futures,
used to exercise `main_pool_thread`. -/
def exWorker : executor_t :=
  { keep_alive_time := FOREVER
    thread_pool := { core_pool_size := 1, max_pool_size := 1, size := 1, shutdown := false }
    futures := cond_protected_buffer_init future_t 1 }

/-- An empty condition-variable buffer of capacity 1. -/
def pbEmpty : cond_protected_buffer Nat := cond_protected_buffer_init Nat 1

/-- A full condition-variable buffer of capacity 1, holding `42`. -/
def pbFull : cond_protected_buffer Nat :=
  { buffer := { max_size := 1, data := [42] } }

/-- An empty semaphore buffer of capacity 1 (`empty_slots = 1`,
`full_slots = 0`). -/
def spbEmpty : sem_protected_buffer Nat := sem_protected_buffer_init Nat 1

/-- A full semaphore buffer of capacity 1, holding `42` (`empty_slots = 0`,
`full_slots = 1`). -/
def spbFull : sem_protected_buffer Nat :=
  { buffer := { max_size := 1, data := [42] }
    empty_slots_sem := 0
    full_slots_sem := 1 }

/-- C1: the claim says that when core-tier thread creation fails and the
futures queue has a free slot, `submit_callable` enqueues the newly created
future and returns it.  On `exSubmit` (core tier full because
`core_pool_size = 0`; empty queue of capacity 1, so a slot is free) the code
instead removes from the empty queue, skips the enqueue, and returns NULL:
the new future is neither stored in the queue nor returned. -/
theorem C1_submit_drops_future_on_empty_queue :
    (submit_callable exSubmit callable0).ret = none ∧
    (submit_callable exSubmit callable0).executor.futures.buffer.data = [] ∧
    (submit_callable exSubmit callable0).spawned = none := by
  refine ⟨rfl, rfl, rfl⟩

/-- C2: the claim says `pool_thread_create` returns success iff it spawns
(`size < core_pool_size`, or `force` and `size < max_pool_size`).  The code
never sets `done = 1` and never reads `force`: on `tpFree` (a free core
slot) it spawns a thread and increments `size` yet returns failure, and on
`tpCoreFull` with `force = true` (overflow tier free) it neither spawns nor
succeeds. -/
theorem C2_pool_thread_create_always_fails :
    (pool_thread_create tpFree future0 false).spawned = some future0 ∧
    (pool_thread_create tpFree future0 false).pool.size = 1 ∧
    (pool_thread_create tpFree future0 false).ret = false ∧
    (pool_thread_create tpCoreFull future0 true).spawned = none ∧
    (pool_thread_create tpCoreFull future0 true).pool.size = 1 ∧
    (pool_thread_create tpCoreFull future0 true).ret = false := by
  refine ⟨rfl, rfl, rfl, rfl, rfl, rfl⟩

/-- C4: the claim says `get_callable_result` returns only once `completed`
is true and yields the worker-stored result.  The body performs no wait and
no synchronization: it returns the result slot immediately for every
future, including `future_incomplete`, whose `completed` flag is false and
whose slot holds the residual value `7` that no worker stored. -/
theorem C4_get_result_ignores_completed :
    (∀ f : future_t, get_callable_result f = f.result) ∧
    get_callable_result future_incomplete = 7 ∧
    future_incomplete.completed = false := by
  exact ⟨fun _ => rfl, rfl, rfl⟩

/-- C5: the claim says `executor_shutdown` (via `wait_thread_pool_empty`)
returns only once the pool size is 0.  `wait_thread_pool_empty` has an
empty body — it is the identity on every pool — so on `exThree` (three
registered workers) `executor_shutdown` returns immediately with
`size = 3`. -/
theorem C5_shutdown_returns_with_workers_left :
    (∀ tp : thread_pool_t, wait_thread_pool_empty tp = tp) ∧
    (executor_shutdown exThree).thread_pool.size = 3 ∧
    (executor_shutdown exThree).thread_pool.shutdown = true := by
  exact ⟨fun _ => rfl, rfl, rfl⟩

/-- C7: the claim says a submission after `executor_shutdown` fails fast
and is never enqueued.  On `exShut` (shutdown flag raised, one future still
queued) `submit_callable` swaps the new future into the queue: the queue
afterwards holds exactly the freshly built future for `callable1`, left to
wait for workers that are terminating. -/
theorem C7_submit_after_shutdown_still_enqueues :
    get_shutdown exShut.thread_pool = true ∧
    (submit_callable exShut callable1).executor.futures.buffer.data = [future1] ∧
    (submit_callable exShut callable1).ret = none := by
  refine ⟨rfl, rfl, rfl⟩

/-- C3: whenever a worker's inner callable loop exits (within any fuel), the
worker fetches no further future from the executor's queue, the outer loop
exits with the local `future` variable still NULL, and the
`pool_thread_remove` it reaches reports success unconditionally. -/
theorem C3_worker_runs_single_future (ex : executor_t) (arg : future_t)
    (fuel : Nat) (run : WorkerRun)
    (h : main_pool_thread ex arg fuel = some run) :
    run.queueFetches = 0 ∧ run.finalFuture = none ∧
    (pool_thread_remove ex.thread_pool).1 = true := by
  unfold main_pool_thread at h
  cases hw : worker_inner_loop arg.callable (get_shutdown ex.thread_pool) fuel with
  | none =>
      rw [hw] at h
      exact absurd h (by simp)
  | some rs =>
      rw [hw] at h
      simp [pool_thread_remove] at h
      subst h
      exact ⟨rfl, rfl, rfl⟩

/-- C3 witness: on `exWorker` with initial future `future0` (one-shot
callable, fuel 1) the worker run is `runFuture0`, which fetches nothing
from the queue and ends with `future = NULL`. -/
theorem C3_worker_runs_single_future_witness :
    runFuture0.queueFetches = 0 ∧ runFuture0.finalFuture = none ∧
    (pool_thread_remove exWorker.thread_pool).1 = true :=
  C3_worker_runs_single_future exWorker future0 1 runFuture0 rfl

/-- C6: on either backend, a timed operation whose wait expires at the
deadline fails without touching the buffer.  Condition-variable backend: a
`poll` on a buffer that stays empty until the deadline returns NULL with
the buffer unchanged, and an `offer` on a buffer that stays full returns 0
with the element not stored.  Semaphore backend: an expired `sem_timedwait`
(`full_slots` resp. `empty_slots` still 0 at the deadline) makes `poll`
return NULL and `offer` return 0, the buffer unchanged. -/
theorem C6_timed_ops_fail_on_expiry (α : Type) (b : cond_protected_buffer α)
    (s : sem_protected_buffer α) (x y : α) :
    (b.buffer.data = [] → cond_protected_buffer_poll b = (none, b)) ∧
    (b.buffer.data.length = b.buffer.max_size →
      cond_protected_buffer_offer b x = (false, b)) ∧
    (s.full_slots_sem = 0 → sem_protected_buffer_poll s = (none, s)) ∧
    (s.empty_slots_sem = 0 → sem_protected_buffer_offer s y = (false, s)) := by
  refine ⟨?_, ?_, ?_, ?_⟩
  · intro h
    simp [cond_protected_buffer_poll, circular_buffer_get, h]
  · intro h
    simp [cond_protected_buffer_offer, circular_buffer_put, h,
      pthread_cond_timedwait_expired, ETIMEDOUT]
  · intro h
    simp [sem_protected_buffer_poll, h]
  · intro h
    simp [sem_protected_buffer_offer, h]

/-- C6 witness: instantiating the expiry theorem on the concrete capacity-1
buffers — `pbEmpty`/`spbEmpty` for the polls, `pbFull`/`spbFull` for the
offers. -/
theorem C6_timed_ops_fail_on_expiry_witness :
    cond_protected_buffer_poll pbEmpty = (none, pbEmpty) ∧
    cond_protected_buffer_offer pbFull 7 = (false, pbFull) ∧
    sem_protected_buffer_poll spbEmpty = (none, spbEmpty) ∧
    sem_protected_buffer_offer spbFull 9 = (false, spbFull) :=
  ⟨(C6_timed_ops_fail_on_expiry Nat pbEmpty spbEmpty 7 9).1 rfl,
   (C6_timed_ops_fail_on_expiry Nat pbFull spbFull 7 9).2.1 rfl,
   (C6_timed_ops_fail_on_expiry Nat pbEmpty spbEmpty 7 9).2.2.1 rfl,
   (C6_timed_ops_fail_on_expiry Nat pbFull spbFull 7 9).2.2.2 rfl⟩

/-- C10: on either backend, `add` on a full buffer fails immediately without
storing and `remove` on an empty buffer returns NULL immediately, the
buffer unchanged in both cases.  (Both operations are non-blocking by
construction: unlike `get`/`put`, their embeddings are total functions with
no blocked outcome, mirroring `sem_trywait` and the absence of any
condition wait in the C bodies.)  The semaphore cases assume the counter
invariant `sem_pb_inv`, which ties `sem_trywait`'s verdict to the buffer
state. -/
theorem C10_nonblocking_ops_fail_immediately (α : Type)
    (b : cond_protected_buffer α) (s : sem_protected_buffer α) (x y : α) :
    (b.buffer.data.length = b.buffer.max_size →
      cond_protected_buffer_add b x = (false, b)) ∧
    (b.buffer.data = [] → cond_protected_buffer_remove b = (none, b)) ∧
    (sem_pb_inv s → s.buffer.data.length = s.buffer.max_size →
      sem_protected_buffer_add s y = (false, s)) ∧
    (sem_pb_inv s → s.buffer.data = [] →
      sem_protected_buffer_remove s = (none, s)) := by
  refine ⟨?_, ?_, ?_, ?_⟩
  · intro h
    simp [cond_protected_buffer_add, circular_buffer_put, h]
  · intro h
    simp [cond_protected_buffer_remove, circular_buffer_get, h]
  · intro hinv h
    have he : s.empty_slots_sem = 0 := by
      have := hinv.2
      omega
    simp [sem_protected_buffer_add, he]
  · intro hinv h
    have hf : s.full_slots_sem = 0 := by
      have := hinv.1
      simp [h] at this
      exact this
    simp [sem_protected_buffer_remove, hf]

/-- C10 witness: instantiating on the concrete capacity-1 buffers —
`pbFull`/`spbFull` for the failing `add`s, `pbEmpty`/`spbEmpty` for the
empty `remove`s. -/
theorem C10_nonblocking_ops_fail_immediately_witness :
    cond_protected_buffer_add pbFull 7 = (false, pbFull) ∧
    cond_protected_buffer_remove pbEmpty = (none, pbEmpty) ∧
    sem_protected_buffer_add spbFull 9 = (false, spbFull) ∧
    sem_protected_buffer_remove spbEmpty = (none, spbEmpty) :=
  ⟨(C10_nonblocking_ops_fail_immediately Nat pbFull spbFull 7 9).1 rfl,
   (C10_nonblocking_ops_fail_immediately Nat pbEmpty spbEmpty 7 9).2.1 rfl,
   (C10_nonblocking_ops_fail_immediately Nat pbFull spbFull 7 9).2.2.1 ⟨rfl, rfl⟩ rfl,
   (C10_nonblocking_ops_fail_immediately Nat pbEmpty spbEmpty 7 9).2.2.2 ⟨rfl, rfl⟩ rfl⟩

/-- One-step simulation between the backends: from `simR`-related states an
operation blocks on the semaphore backend iff it blocks on the
condition-variable backend, and otherwise both produce the same result and
`simR`-related successor states. -/
theorem step_sim {α : Type} (op : QueueOp α) (s : sem_protected_buffer α)
    (c : cond_protected_buffer α) (h : simR s c) :
    (semStep op s = none ∧ condStep op c = none) ∨
    ∃ r s2 c2, semStep op s = some (r, s2) ∧ condStep op c = some (r, c2) ∧
      simR s2 c2 := by
  unfold simR sem_pb_inv at h
  obtain ⟨hb, hfull, hempty⟩ := h
  obtain ⟨sbuf, se, sf⟩ := s
  obtain ⟨cbuf⟩ := c
  replace hb : sbuf = cbuf := hb
  subst hb
  obtain ⟨m, data⟩ := sbuf
  replace hfull : sf = data.length := hfull
  replace hempty : se + data.length = m := hempty
  cases op with
  | get =>
      cases data with
      | nil =>
          have hsf : sf = 0 := by simpa using hfull
          subst hsf
          exact Or.inl ⟨rfl, rfl⟩
      | cons d t =>
          have hsf : sf = t.length + 1 := by simpa using hfull
          subst hsf
          refine Or.inr ⟨.elem (some d), ⟨⟨m, t⟩, se + 1, t.length⟩, ⟨⟨m, t⟩⟩,
            rfl, rfl, rfl, rfl, ?_⟩
          show se + 1 + t.length = m
          simp at hempty
          omega
  | put d =>
      by_cases hse : se = 0
      · subst hse
        have hlen : data.length = m := by omega
        refine Or.inl ⟨rfl, ?_⟩
        simp [condStep, cond_protected_buffer_put, hlen]
      · have hlen : data.length < m := by omega
        have hlm : ¬ data.length = m := by omega
        refine Or.inr ⟨.unit, ⟨⟨m, data ++ [d]⟩, se - 1, sf + 1⟩,
          ⟨⟨m, data ++ [d]⟩⟩, ?_, ?_, rfl, ?_, ?_⟩
        · simp [semStep, sem_protected_buffer_put, hse, circular_buffer_put, hlen]
        · simp [condStep, cond_protected_buffer_put, hlm, circular_buffer_put, hlen]
        · show sf + 1 = (data ++ [d]).length
          simp [hfull]
        · show se - 1 + (data ++ [d]).length = m
          simp
          omega
  | remove =>
      cases data with
      | nil =>
          have hsf : sf = 0 := by simpa using hfull
          subst hsf
          exact Or.inr ⟨.elem none, ⟨⟨m, []⟩, se, 0⟩, ⟨⟨m, []⟩⟩, rfl, rfl,
            rfl, rfl, by simpa using hempty⟩
      | cons d t =>
          have hsf : sf = t.length + 1 := by simpa using hfull
          subst hsf
          refine Or.inr ⟨.elem (some d), ⟨⟨m, t⟩, se + 1, t.length⟩, ⟨⟨m, t⟩⟩,
            rfl, rfl, rfl, rfl, ?_⟩
          show se + 1 + t.length = m
          simp at hempty
          omega
  | add d =>
      by_cases hse : se = 0
      · subst hse
        have hlen : data.length = m := by omega
        refine Or.inr ⟨.flag false, ⟨⟨m, data⟩, 0, sf⟩, ⟨⟨m, data⟩⟩,
          rfl, ?_, rfl, hfull, by show 0 + data.length = m; omega⟩
        simp [condStep, cond_protected_buffer_add, circular_buffer_put, hlen]
      · have hlen : data.length < m := by omega
        refine Or.inr ⟨.flag true, ⟨⟨m, data ++ [d]⟩, se - 1, sf + 1⟩,
          ⟨⟨m, data ++ [d]⟩⟩, ?_, ?_, rfl, ?_, ?_⟩
        · simp [semStep, sem_protected_buffer_add, hse, circular_buffer_put, hlen]
        · simp [condStep, cond_protected_buffer_add, circular_buffer_put, hlen]
        · show sf + 1 = (data ++ [d]).length
          simp [hfull]
        · show se - 1 + (data ++ [d]).length = m
          simp
          omega
  | poll =>
      cases data with
      | nil =>
          have hsf : sf = 0 := by simpa using hfull
          subst hsf
          exact Or.inr ⟨.elem none, ⟨⟨m, []⟩, se, 0⟩, ⟨⟨m, []⟩⟩, rfl, rfl,
            rfl, rfl, by simpa using hempty⟩
      | cons d t =>
          have hsf : sf = t.length + 1 := by simpa using hfull
          subst hsf
          refine Or.inr ⟨.elem (some d), ⟨⟨m, t⟩, se + 1, t.length⟩, ⟨⟨m, t⟩⟩,
            rfl, rfl, rfl, rfl, ?_⟩
          show se + 1 + t.length = m
          simp at hempty
          omega
  | offer d =>
      by_cases hse : se = 0
      · subst hse
        have hlen : data.length = m := by omega
        refine Or.inr ⟨.flag false, ⟨⟨m, data⟩, 0, sf⟩, ⟨⟨m, data⟩⟩,
          rfl, ?_, rfl, hfull, by show 0 + data.length = m; omega⟩
        simp [condStep, cond_protected_buffer_offer, circular_buffer_put, hlen,
          pthread_cond_timedwait_expired, ETIMEDOUT]
      · have hlen : data.length < m := by omega
        have hlm : ¬ data.length = m := by omega
        refine Or.inr ⟨.flag true, ⟨⟨m, data ++ [d]⟩, se - 1, sf + 1⟩,
          ⟨⟨m, data ++ [d]⟩⟩, ?_, ?_, rfl, ?_, ?_⟩
        · simp [semStep, sem_protected_buffer_offer, hse, circular_buffer_put, hlen]
        · simp [condStep, cond_protected_buffer_offer, circular_buffer_put, hlen, hlm]
        · show sf + 1 = (data ++ [d]).length
          simp [hfull]
        · show se - 1 + (data ++ [d]).length = m
          simp
          omega

/-- Whole-run simulation: from `simR`-related states, both backends execute
the same prefix of the operation sequence, log identical results, and end
in `simR`-related states. -/
theorem run_sim {α : Type} (l : List (QueueOp α)) :
    ∀ (s : sem_protected_buffer α) (c : cond_protected_buffer α), simR s c →
      (runSem l s).1 = (runCond l c).1 ∧ simR (runSem l s).2 (runCond l c).2 := by
  induction l with
  | nil =>
      intro s c h
      exact ⟨rfl, h⟩
  | cons op rest ih =>
      intro s c h
      rcases step_sim op s c h with ⟨h1, h2⟩ | ⟨r, s2, c2, h1, h2, h3⟩
      · simp only [runSem, runCond, h1, h2]
        exact ⟨trivial, h⟩
      · have hr := ih s2 c2 h3
        simp only [runSem, runCond, h1, h2]
        exact ⟨by rw [hr.1], hr.2⟩

/-- The two `init` functions of equal capacity produce `simR`-related
states. -/
theorem init_sim (α : Type) (n : Nat) :
    simR (sem_protected_buffer_init α n) (cond_protected_buffer_init α n) :=
  ⟨rfl, rfl, rfl⟩

/-- C8: byte-identical external behavior of the two backends — for every
sequence of the six queue operations run on freshly initialized buffers of
the same capacity, the semaphore backend and the condition-variable backend
execute the same operations, return identical results, and leave identical
final buffer contents. -/
theorem C8_backends_equivalent (α : Type) (ops : List (QueueOp α)) (n : Nat) :
    (runSem ops (sem_protected_buffer_init α n)).1 =
      (runCond ops (cond_protected_buffer_init α n)).1 ∧
    (runSem ops (sem_protected_buffer_init α n)).2.buffer =
      (runCond ops (cond_protected_buffer_init α n)).2.buffer := by
  have h := run_sim ops (sem_protected_buffer_init α n)
    (cond_protected_buffer_init α n) (init_sim α n)
  exact ⟨h.1, h.2.1⟩

/-- One-step FIFO bookkeeping on the condition-variable backend: an executed
operation preserves `size ≤ capacity`, and the buffer before the step plus
whatever the step enqueued equals whatever it dequeued plus the buffer
after the step. -/
theorem cond_step_trace {α : Type} (op : QueueOp α) (c c2 : cond_protected_buffer α)
    (r : OpResult α) (hw : c.buffer.data.length ≤ c.buffer.max_size)
    (h : condStep op c = some (r, c2)) :
    c2.buffer.data.length ≤ c2.buffer.max_size ∧
    c.buffer.data ++ enqOf (op, r) = deqOf (op, r) ++ c2.buffer.data := by
  obtain ⟨⟨m, data⟩⟩ := c
  replace hw : data.length ≤ m := hw
  cases op with
  | get =>
      cases data with
      | nil => exact absurd h (by simp [condStep, cond_protected_buffer_get])
      | cons d t =>
          simp [condStep, cond_protected_buffer_get, circular_buffer_get] at h
          obtain ⟨rfl, rfl⟩ := h
          refine ⟨?_, by simp [enqOf, deqOf]⟩
          show t.length ≤ m
          simp at hw
          omega
  | put d =>
      by_cases hlen : data.length = m
      · exact absurd h (by simp [condStep, cond_protected_buffer_put, hlen])
      · have hlt : data.length < m := by omega
        simp [condStep, cond_protected_buffer_put, hlen, circular_buffer_put, hlt] at h
        obtain ⟨rfl, rfl⟩ := h
        refine ⟨?_, by simp [enqOf, deqOf]⟩
        show (data ++ [d]).length ≤ m
        simp
        omega
  | remove =>
      cases data with
      | nil =>
          simp [condStep, cond_protected_buffer_remove, circular_buffer_get] at h
          obtain ⟨rfl, rfl⟩ := h
          exact ⟨hw, by simp [enqOf, deqOf]⟩
      | cons d t =>
          simp [condStep, cond_protected_buffer_remove, circular_buffer_get] at h
          obtain ⟨rfl, rfl⟩ := h
          refine ⟨?_, by simp [enqOf, deqOf]⟩
          show t.length ≤ m
          simp at hw
          omega
  | add d =>
      by_cases hlt : data.length < m
      · simp [condStep, cond_protected_buffer_add, circular_buffer_put, hlt] at h
        obtain ⟨rfl, rfl⟩ := h
        refine ⟨?_, by simp [enqOf, deqOf]⟩
        show (data ++ [d]).length ≤ m
        simp
        omega
      · simp [condStep, cond_protected_buffer_add, circular_buffer_put, hlt] at h
        obtain ⟨rfl, rfl⟩ := h
        exact ⟨hw, by simp [enqOf, deqOf]⟩
  | poll =>
      cases data with
      | nil =>
          simp [condStep, cond_protected_buffer_poll, circular_buffer_get] at h
          obtain ⟨rfl, rfl⟩ := h
          exact ⟨hw, by simp [enqOf, deqOf]⟩
      | cons d t =>
          simp [condStep, cond_protected_buffer_poll, circular_buffer_get] at h
          obtain ⟨rfl, rfl⟩ := h
          refine ⟨?_, by simp [enqOf, deqOf]⟩
          show t.length ≤ m
          simp at hw
          omega
  | offer d =>
      by_cases hlt : data.length < m
      · have hlen : ¬ data.length = m := by omega
        simp [condStep, cond_protected_buffer_offer, hlen, circular_buffer_put, hlt,
          pthread_cond_timedwait_expired, ETIMEDOUT] at h
        obtain ⟨rfl, rfl⟩ := h
        refine ⟨?_, by simp [enqOf, deqOf]⟩
        show (data ++ [d]).length ≤ m
        simp
        omega
      · have hlen : data.length = m := by omega
        simp [condStep, cond_protected_buffer_offer, hlen, circular_buffer_put, hlt,
          pthread_cond_timedwait_expired, ETIMEDOUT] at h
        obtain ⟨rfl, rfl⟩ := h
        exact ⟨hw, by simp [enqOf, deqOf]⟩

/-- Whole-run FIFO bookkeeping on the condition-variable backend: starting
from a well-formed buffer, the initial contents followed by everything the
run enqueued equal everything it dequeued followed by the final contents. -/
theorem cond_run_trace {α : Type} (l : List (QueueOp α)) :
    ∀ c : cond_protected_buffer α, c.buffer.data.length ≤ c.buffer.max_size →
      (runCond l c).2.buffer.data.length ≤ (runCond l c).2.buffer.max_size ∧
      c.buffer.data ++ enqueuedOf (runCond l c).1 =
        dequeuedOf (runCond l c).1 ++ (runCond l c).2.buffer.data := by
  induction l with
  | nil =>
      intro c hw
      exact ⟨hw, by simp [runCond, enqueuedOf, dequeuedOf]⟩
  | cons op rest ih =>
      intro c hw
      cases hstep : condStep op c with
      | none =>
          simp only [runCond, hstep]
          exact ⟨hw, by simp [enqueuedOf, dequeuedOf]⟩
      | some p =>
          obtain ⟨r, c2⟩ := p
          have hs := cond_step_trace op c c2 r hw hstep
          have hr := ih c2 hs.1
          simp only [runCond, hstep]
          refine ⟨hr.1, ?_⟩
          show c.buffer.data ++ (enqOf (op, r) ++ enqueuedOf (runCond rest c2).1) =
            (deqOf (op, r) ++ dequeuedOf (runCond rest c2).1) ++
              (runCond rest c2).2.buffer.data
          rw [← List.append_assoc, hs.2, List.append_assoc, hr.2,
            ← List.append_assoc]

/-- C9: FIFO order — for every sequence of queue operations run from a
freshly initialized buffer, the elements successfully dequeued (by
`get`/`remove`/`poll`) form, in order, a prefix of the elements
successfully enqueued (by `put`/`add`/`offer`), on both the
condition-variable backend and the semaphore backend; in particular this
holds for every sequence of `put`/`add` enqueues and `get`/`remove`
dequeues. -/
theorem C9_fifo_dequeue_order (α : Type) (ops : List (QueueOp α)) (n : Nat) :
    (∃ t, dequeuedOf (runCond ops (cond_protected_buffer_init α n)).1 ++ t =
      enqueuedOf (runCond ops (cond_protected_buffer_init α n)).1) ∧
    (∃ t, dequeuedOf (runSem ops (sem_protected_buffer_init α n)).1 ++ t =
      enqueuedOf (runSem ops (sem_protected_buffer_init α n)).1) := by
  have hc := cond_run_trace ops (cond_protected_buffer_init α n) (Nat.zero_le n)
  have hcond : ∃ t, dequeuedOf (runCond ops (cond_protected_buffer_init α n)).1 ++ t =
      enqueuedOf (runCond ops (cond_protected_buffer_init α n)).1 := by
    refine ⟨(runCond ops (cond_protected_buffer_init α n)).2.buffer.data, ?_⟩
    have h2 := hc.2
    simp only [cond_protected_buffer_init, circular_buffer_init] at h2
    simpa using h2.symm
  refine ⟨hcond, ?_⟩
  have hsim := run_sim ops (sem_protected_buffer_init α n)
    (cond_protected_buffer_init α n) (init_sim α n)
  rw [hsim.1]
  exact hcond
